import Mathlib

/-!
Shallow embedding of the FoodKeeper application core (expiry evaluator,
storage-adjusted expiry suggestion, notification generator, recipe matcher,
rate limiter) from the TypeScript/JavaScript sources, together with theorems
settling the specification claims.

Modelling conventions:
* Calendar dates are integers (day numbers); `date-fns`'s `differenceInDays`
  on midnight-aligned dates is integer subtraction.
* A date string is modelled by its parse result `Option Int`
  (`none` = `parseISO` yields an invalid date, `some d` = parses to day `d`).
* Database tables are Lean lists; repository methods are pure functions on
  them; thrown errors are `Except.error`.
-/

namespace FoodKeeper

/-! ## DateUtils (shared/utils, `src/unnamed/part_013`) -/

namespace DateUtils

/-- `getDaysUntilExpiry`: `differenceInDays(expiry, today)` on day numbers. -/
def getDaysUntilExpiry (expiry today : Int) : Int :=
  expiry - today

/-- `isExpiringSoon(expiryDate, daysThreshold)`:
`daysUntil <= daysThreshold && daysUntil >= 0`. -/
def isExpiringSoon (expiry today threshold : Int) : Bool :=
  getDaysUntilExpiry expiry today ≤ threshold &&
    getDaysUntilExpiry expiry today ≥ 0

/-- `isExpired(expiryDate)`: `getDaysUntilExpiry(expiryDate) < 0`. -/
def isExpired (expiry today : Int) : Bool :=
  getDaysUntilExpiry expiry today < 0

end DateUtils

/-- The three-way classification the spec calls `classify(expiry_date, today)`,
assembled from the two `DateUtils` predicates: "expired" when `isExpired`,
"expiring soon" when `isExpiringSoon` (threshold defaults to 3), otherwise
"active". -/
def classify (expiry today threshold : Int) : String :=
  if DateUtils.isExpired expiry today then "expired"
  else if DateUtils.isExpiringSoon expiry today threshold then "expiring soon"
  else "active"

end FoodKeeper

namespace FoodKeeper

/-- C1: For every food and every today, the classification is "expired" iff
the day-offset is negative, "expiring soon" iff the offset is between 0 and
the threshold inclusive (in particular the exact threshold boundary is
"expiring soon", not "active"), and "active" otherwise. -/
theorem classify_c1 (expiry today threshold : Int) (hthr : 0 ≤ threshold) :
    (classify expiry today threshold = "expired" ↔ expiry - today < 0)
    ∧ (classify expiry today threshold = "expiring soon" ↔
        (0 ≤ expiry - today ∧ expiry - today ≤ threshold))
    ∧ (expiry - today = threshold →
        classify expiry today threshold = "expiring soon")
    ∧ (classify expiry today threshold = "active" ↔
        threshold < expiry - today) := by
  by_cases h1 : expiry - today < 0
  · simp [classify, DateUtils.isExpired, DateUtils.isExpiringSoon,
      DateUtils.getDaysUntilExpiry, h1]
    omega
  · have h3 : expiry - today ≥ 0 := by omega
    by_cases h2 : expiry - today ≤ threshold
    · simp [classify, DateUtils.isExpired, DateUtils.isExpiringSoon,
        DateUtils.getDaysUntilExpiry, h1, h2, h3]
    · simp [classify, DateUtils.isExpired, DateUtils.isExpiringSoon,
        DateUtils.getDaysUntilExpiry, h1, h2, h3]
      omega

/-- Witness for C1 at a concrete input: offset 3 with threshold 3 is the
boundary and classifies as "expiring soon". -/
theorem classify_c1_witness :
    (0 : Int) ≤ 3 ∧ classify 10 7 3 = "expiring soon" :=
  ⟨by decide, ((classify_c1 10 7 3 (by decide)).2.2.1 (by decide))⟩

/-! ## Storage-adjusted expiry suggestion
(`FoodService.adjustExpiryDateBasedOnStorage`,
`src/backend/src/services/food.service.ts`) -/

/-- A storage tip row (`storage_tips` table), restricted to the fields the
adjustment reads. -/
structure StorageTip where
  storage_method : String
  shelf_life_days : Int
  deriving Repr, DecidableEq

/-- The slice of a food-creation/update payload that
`adjustExpiryDateBasedOnStorage` reads and writes.  JavaScript's falsy check
on `name`/`storage_location` is the empty-string check. -/
structure FoodData where
  name : String
  storage_location : String
  purchase_date : Int
  expiry_date : Int
  deriving Repr, DecidableEq

/-- `adjustExpiryDateBasedOnStorage`.  The repository lookup
`storageTipRepository.findByFoodName` is passed in as the function `tips`. -/
def adjustExpiryDateBasedOnStorage (tips : String → Option StorageTip)
    (fd : FoodData) : FoodData :=
  if fd.storage_location.isEmpty || fd.name.isEmpty then fd
  else
    match tips fd.name with
    | some storageTip =>
        if storageTip.storage_method == fd.storage_location then
          let suggestedDate := fd.purchase_date + storageTip.shelf_life_days
          if suggestedDate > fd.expiry_date then
            { fd with expiry_date := suggestedDate }
          else fd
        else fd
    | none => fd

/-- C2: the storage-adjustment step never decreases the user-supplied expiry
date; it replaces it with `purchase_date + shelf_life_days` exactly when a
tip exists for the food's name, the tip's method equals the storage
location, and that candidate is strictly later; in every other case the
payload is returned unchanged. -/
theorem adjustExpiry_c2 (tips : String → Option StorageTip) (fd : FoodData)
    (hname : fd.name ≠ "") (hloc : fd.storage_location ≠ "") :
    (fd.expiry_date ≤ (adjustExpiryDateBasedOnStorage tips fd).expiry_date)
    ∧ (∀ tip, tips fd.name = some tip →
        tip.storage_method = fd.storage_location →
        fd.expiry_date < fd.purchase_date + tip.shelf_life_days →
        adjustExpiryDateBasedOnStorage tips fd =
          { fd with expiry_date := fd.purchase_date + tip.shelf_life_days })
    ∧ ((¬ ∃ tip, tips fd.name = some tip ∧
          tip.storage_method = fd.storage_location ∧
          fd.expiry_date < fd.purchase_date + tip.shelf_life_days) →
        adjustExpiryDateBasedOnStorage tips fd = fd) := by
  have hn : fd.name.isEmpty = false := by
    by_contra h
    rw [Bool.not_eq_false] at h
    exact hname ((String.isEmpty_iff fd.name).mp h)
  have hl : fd.storage_location.isEmpty = false := by
    by_contra h
    rw [Bool.not_eq_false] at h
    exact hloc ((String.isEmpty_iff fd.storage_location).mp h)
  unfold adjustExpiryDateBasedOnStorage
  rw [hn, hl]
  simp only [Bool.or_false]
  refine ⟨?_, ?_, ?_⟩
  · cases htip : tips fd.name with
    | none => simp
    | some tip =>
        by_cases hm : tip.storage_method == fd.storage_location
        · by_cases hgt : fd.purchase_date + tip.shelf_life_days > fd.expiry_date
          · simp [hm, hgt]
            omega
          · simp [hm, hgt]
        · simp [hm]
  · intro tip htip hm hlt
    rw [htip]
    simp [hm, hlt]
  · intro hno
    cases htip : tips fd.name with
    | none => simp
    | some tip =>
        by_cases hm : tip.storage_method = fd.storage_location
        · have hge : ¬ (fd.expiry_date < fd.purchase_date + tip.shelf_life_days) := by
            intro hlt
            exact hno ⟨tip, htip, hm, hlt⟩
          simp [hm, hge]
        · simp [hm]

/-! ## Recipe matcher
(`get_recipe_suggestions`, `src/mcp-server/src/simple-mcp-server.js`) -/

/-- A recipe object of the MCP server's hard-coded database. -/
structure Recipe where
  name : String
  description : String
  ingredients : List String
  instructions : List String
  prep_time : Nat
  cook_time : Nat
  difficulty : String
  servings : Nat
  tags : List String
  deriving Repr, DecidableEq

/-- `recipeDatabase['りんご'][0]`. -/
def applePie : Recipe :=
  { name := "アップルパイ", description := "りんごを使った簡単デザート",
    ingredients := ["りんご", "小麦粉", "バター", "砂糖"],
    instructions := ["りんごを切る", "生地を作る", "オーブンで焼く"],
    prep_time := 30, cook_time := 45, difficulty := "medium", servings := 4,
    tags := ["デザート", "焼き菓子", "りんご"] }

/-- `recipeDatabase['りんご'][1]`. -/
def appleSalad : Recipe :=
  { name := "りんごサラダ", description := "さっぱり美味しいフルーツサラダ",
    ingredients := ["りんご", "レタス", "ナッツ", "ドレッシング"],
    instructions := ["りんごを薄切りする", "レタスと混ぜる", "ナッツをトッピング"],
    prep_time := 10, cook_time := 0, difficulty := "easy", servings := 2,
    tags := ["サラダ", "ヘルシー", "りんご"] }

/-- `recipeDatabase['牛乳'][0]`. -/
def hotMilk : Recipe :=
  { name := "ホットミルク", description := "温かくて優しい飲み物",
    ingredients := ["牛乳", "はちみつ", "シナモン"],
    instructions := ["牛乳を温める", "はちみつを加える", "シナモンをトッピング"],
    prep_time := 5, cook_time := 3, difficulty := "easy", servings := 1,
    tags := ["ドリンク", "温かい", "牛乳"] }

/-- `recipeDatabase['牛乳'][1]`. -/
def milkPudding : Recipe :=
  { name := "ミルクプリン", description := "なめらかで美味しいプリン",
    ingredients := ["牛乳", "砂糖", "ゼラチン", "バニラエッセンス"],
    instructions := ["ゼラチンを溶かす", "牛乳と砂糖を混ぜる", "冷やし固める"],
    prep_time := 15, cook_time := 0, difficulty := "medium", servings := 4,
    tags := ["デザート", "プリン", "牛乳"] }

/-- `recipeDatabase['なす'][0]`. -/
def nasuMisoItame : Recipe :=
  { name := "なすの味噌炒め", description := "ご飯が進む定番おかず",
    ingredients := ["なす", "味噌", "砂糖", "みりん", "油"],
    instructions := ["なすを切って油で炒める", "味噌、砂糖、みりんを混ぜた調味料を加える",
      "全体に絡めて完成"],
    prep_time := 10, cook_time := 15, difficulty := "easy", servings := 2,
    tags := ["和食", "おかず", "なす"] }

/-- `recipeDatabase['なす'][1]`. -/
def nasuAgebitashi : Recipe :=
  { name := "なすの揚げ浸し", description := "夏にぴったりのさっぱり料理",
    ingredients := ["なす", "出汁", "醤油", "みりん", "生姜"],
    instructions := ["なすを素揚げする", "つゆを作る", "揚げたなすをつゆに浸す"],
    prep_time := 15, cook_time := 10, difficulty := "medium", servings := 3,
    tags := ["和食", "揚げ物", "なす"] }

/-- The per-ingredient dictionary `recipeDatabase`; a missing key yields the
empty list (the JS loop skips absent keys). -/
def recipeDatabase (key : String) : List Recipe :=
  if key = "りんご" then [applePie, appleSalad]
  else if key = "牛乳" then [hotMilk, milkPudding]
  else if key = "なす" then [nasuMisoItame, nasuAgebitashi]
  else []

/-- One entry of the `combinationRecipes` array: a required ingredient set
and the recipe it unlocks. -/
structure ComboRecipe where
  ingredients : List String
  recipe : Recipe
  deriving Repr, DecidableEq

/-- `combinationRecipes[0].recipe`. -/
def fruitMilkShake : Recipe :=
  { name := "フルーツミルクシェイク", description := "牛乳とりんごの栄養満点ドリンク",
    ingredients := ["牛乳", "りんご", "はちみつ", "氷"],
    instructions := ["りんごを切る", "材料をミキサーに入れる", "よく混ぜる", "氷を加える"],
    prep_time := 5, cook_time := 0, difficulty := "easy", servings := 2,
    tags := ["ドリンク", "フルーツ", "ミルク"] }

/-- The `combinationRecipes` array. -/
def combinationRecipes : List ComboRecipe :=
  [{ ingredients := ["りんご", "牛乳"], recipe := fruitMilkShake }]

/-- The fallback recipe pushed when no match was found. -/
def fallbackRecipe (ingredients : List String) : Recipe :=
  { name := "簡単サラダ", description := "利用可能な食材で作る簡単サラダ",
    ingredients := ingredients ++ ["ドレッシング"],
    instructions := ["材料を切る", "混ぜ合わせる", "ドレッシングをかける"],
    prep_time := 10, cook_time := 0, difficulty := "easy", servings := 2,
    tags := ["簡単", "サラダ"] }

/-- The `get_recipe_suggestions` endpoint body: combination recipes whose
required ingredients all occur in the input, then the dictionary entries of
each input ingredient, deduplicated with the JS
`filter((r, i, arr) => arr.findIndex(q => q.name === r.name) === i)` idiom,
sliced to 4, with the fallback when empty. -/
def getRecipeSuggestions (ingredients : List String) : List Recipe :=
  let comboPart := (combinationRecipes.filter
    (fun combo => combo.ingredients.all
      (fun i => ingredients.contains i))).map (fun combo => combo.recipe)
  let suggestedRecipes := comboPart ++
    ingredients.flatMap (fun ingredient => recipeDatabase ingredient)
  let uniqueRecipes := ((suggestedRecipes.enum.filter
    (fun p => suggestedRecipes.findIdx
      (fun r => r.name == p.2.name) == p.1)).map Prod.snd).take 4
  if uniqueRecipes.isEmpty then [fallbackRecipe ingredients]
  else uniqueRecipes

/-- First-seen-order deduplication by recipe name, written as the spec
describes it (carrying the set of already-seen names). -/
def dedupByNameFirstSeen (seen : List String) : List Recipe → List Recipe
  | [] => []
  | r :: rs =>
      if seen.contains r.name then dedupByNameFirstSeen seen rs
      else r :: dedupByNameFirstSeen (r.name :: seen) rs

/-- Modelled from the spec: the recipe-matcher pipeline exactly as §4.3
words it — (a) matching combination recipes, (b) dictionary entries per
input ingredient, (c) first-seen dedup by name, (d) truncation to 4,
(e) the fallback when empty. -/
def suggestSpec (ingredients : List String) : List Recipe :=
  let combos := (combinationRecipes.filter
    (fun combo => combo.ingredients.all
      (fun i => ingredients.contains i))).map (fun combo => combo.recipe)
  let individual := ingredients.flatMap recipeDatabase
  let result := (dedupByNameFirstSeen [] (combos ++ individual)).take 4
  if result.isEmpty then [fallbackRecipe ingredients] else result

theorem dedup_aux (xs : List Recipe) : ∀ (n : Nat) (seen : List String),
    ((List.enumFrom n xs).filter
        (fun p => !(seen.contains p.2.name) &&
          (n + xs.findIdx (fun r => r.name == p.2.name) == p.1))).map Prod.snd
      = dedupByNameFirstSeen seen xs := by
  induction xs with
  | nil => intro n seen; simp [dedupByNameFirstSeen]
  | cons x tail ih =>
      intro n seen
      rw [List.enumFrom_cons, List.filter_cons]
      have hhead : (!(seen.contains x.name) &&
          (n + (x :: tail).findIdx (fun r => r.name == x.name) == n))
          = !(seen.contains x.name) := by
        rw [List.findIdx_cons]
        simp
      rw [hhead]
      by_cases hseen : x.name ∈ seen
      · have hcong : (List.enumFrom (n + 1) tail).filter
              (fun p => !(seen.contains p.2.name) &&
                (n + (x :: tail).findIdx (fun r => r.name == p.2.name) == p.1))
            = (List.enumFrom (n + 1) tail).filter
              (fun p => !(seen.contains p.2.name) &&
                ((n + 1) + tail.findIdx (fun r => r.name == p.2.name) == p.1)) := by
          apply List.filter_congr
          rintro ⟨j, a⟩ hmem
          obtain ⟨hj, -, -⟩ := List.mem_enumFrom hmem
          rw [List.findIdx_cons]
          by_cases hx : a.name = x.name
          · simp [hx, hseen]
          · have hb : (x.name == a.name) = false := by
              simp only [beq_eq_false_iff_ne, ne_eq]
              exact fun h => hx h.symm
            have harith : n + (tail.findIdx (fun r => r.name == a.name) + 1)
                = (n + 1) + tail.findIdx (fun r => r.name == a.name) := by omega
            rw [hb]
            simp only [cond_false, harith]
        rw [if_neg (by simp [hseen]), hcong, ih (n + 1) seen,
          dedupByNameFirstSeen]
        rw [if_pos (by simp [hseen])]
      · have hcong : (List.enumFrom (n + 1) tail).filter
              (fun p => !(seen.contains p.2.name) &&
                (n + (x :: tail).findIdx (fun r => r.name == p.2.name) == p.1))
            = (List.enumFrom (n + 1) tail).filter
              (fun p => !((x.name :: seen).contains p.2.name) &&
                ((n + 1) + tail.findIdx (fun r => r.name == p.2.name) == p.1)) := by
          apply List.filter_congr
          rintro ⟨j, a⟩ hmem
          obtain ⟨hj, -, -⟩ := List.mem_enumFrom hmem
          rw [List.findIdx_cons]
          by_cases hx : a.name = x.name
          · simp [hx]
            intro _
            omega
          · have hb : (x.name == a.name) = false := by
              simp only [beq_eq_false_iff_ne, ne_eq]
              exact fun h => hx h.symm
            have harith : n + (tail.findIdx (fun r => r.name == a.name) + 1)
                = (n + 1) + tail.findIdx (fun r => r.name == a.name) := by omega
            rw [hb]
            simp only [cond_false, harith, List.contains_cons]
            have hbb : (a.name == x.name) = false := by
              simp only [beq_eq_false_iff_ne, ne_eq]
              exact hx
            rw [hbb]
            simp
        rw [if_pos (by simp [hseen]), hcong]
        simp only [List.map_cons, ih (n + 1) (x.name :: seen),
          dedupByNameFirstSeen]
        rw [if_neg (by simp [hseen])]

/-- The JS `findIndex`-based dedup equals first-seen dedup by name. -/
theorem dedupJS_eq (arr : List Recipe) :
    ((arr.enum.filter
        (fun p => arr.findIdx (fun r => r.name == p.2.name) == p.1)).map
      Prod.snd)
      = dedupByNameFirstSeen [] arr := by
  rw [List.enum_eq_enumFrom, ← dedup_aux arr 0 []]
  congr 1
  apply List.filter_congr
  intro p _
  simp

/-- C3: for every ingredient list, the suggestion endpoint returns exactly
the spec's pipeline — matching combination recipes, then dictionary entries
per input ingredient, first-seen-deduplicated by name, truncated to 4, with
a single "簡単サラダ" fallback containing the input ingredients when the
result would be empty. -/
theorem getRecipeSuggestions_c3 (ingredients : List String) :
    getRecipeSuggestions ingredients = suggestSpec ingredients
    ∧ (fallbackRecipe ingredients).name = "簡単サラダ"
    ∧ (∀ i ∈ ingredients, i ∈ (fallbackRecipe ingredients).ingredients) := by
  refine ⟨?_, rfl, ?_⟩
  · unfold getRecipeSuggestions suggestSpec
    simp only [dedupJS_eq]
  · intro i hi
    simp [fallbackRecipe]
    exact Or.inl hi

/-- Witness for C3: the unknown ingredient "謎の食材" yields exactly the one
fallback recipe, which contains that ingredient. -/
theorem getRecipeSuggestions_c3_witness :
    getRecipeSuggestions ["謎の食材"] = [fallbackRecipe ["謎の食材"]]
    ∧ "謎の食材" ∈ (fallbackRecipe ["謎の食材"]).ingredients := by
  refine ⟨?_, (getRecipeSuggestions_c3 ["謎の食材"]).2.2 _ (by decide)⟩
  rw [(getRecipeSuggestions_c3 ["謎の食材"]).1]
  decide

/-- C5: on input ["りんご", "牛乳"] the endpoint returns the combination
recipe フルーツミルクシェイク followed by dictionary recipes of both
ingredients, with pairwise-distinct names, capped at 4. -/
theorem getRecipeSuggestions_c5 :
    getRecipeSuggestions ["りんご", "牛乳"]
      = [fruitMilkShake, applePie, appleSalad, hotMilk]
    ∧ fruitMilkShake ∈ getRecipeSuggestions ["りんご", "牛乳"]
    ∧ (∃ r ∈ recipeDatabase "りんご", r ∈ getRecipeSuggestions ["りんご", "牛乳"])
    ∧ (∃ r ∈ recipeDatabase "牛乳", r ∈ getRecipeSuggestions ["りんご", "牛乳"])
    ∧ (getRecipeSuggestions ["りんご", "牛乳"]).length ≤ 4
    ∧ ((getRecipeSuggestions ["りんご", "牛乳"]).map Recipe.name).Nodup := by
  decide

/-- Witness for C2 at a concrete input: a refrigerated tip of 10 days
extends an expiry 5 days after purchase. -/
theorem adjustExpiry_c2_witness :
    let tips : String → Option StorageTip :=
      fun n => if n = "りんご" then some ⟨"refrigerator", 10⟩ else none
    let fd : FoodData := ⟨"りんご", "refrigerator", 100, 105⟩
    fd.name ≠ "" ∧ fd.storage_location ≠ "" ∧
      adjustExpiryDateBasedOnStorage tips fd =
        { fd with expiry_date := 110 } := by
  refine ⟨by decide, by decide, ?_⟩
  exact (adjustExpiry_c2 _ _ (by decide) (by decide)).2.1
    ⟨"refrigerator", 10⟩ (by decide) (by decide) (by decide)

/-! ## Backend data model and repositories
(`src/backend/src/repositories`, schema in `src/unnamed/part_000..001`) -/

/-- A `foods` row (fields the service layer reads); dates are day numbers. -/
structure Food where
  id : Nat
  user_id : Nat
  category_id : Nat
  name : String
  storage_location : String
  purchase_date : Int
  expiry_date : Int
  quantity : Int
  unit : String
  status : String
  deriving Repr, DecidableEq

/-- A `notifications` row.  `food_id` is nullable in the schema.  The schema
default for `status` is `'unread'`. -/
structure Notification where
  user_id : Nat
  food_id : Option Nat
  type : String
  title : String
  message : String
  priority : String
  status : String
  deriving Repr, DecidableEq

/-- The database state the claims touch.  Lists are in insertion order
(`created_at` order). -/
structure DB where
  foods : List Food
  notifications : List Notification
  deriving Repr, DecidableEq

namespace NotificationRepository

/-- `findByUserAndFood`: `WHERE user_id = $1 AND food_id = $2 AND type = $3
ORDER BY created_at DESC LIMIT 1` — note: no filter on `status`. -/
def findByUserAndFood (db : DB) (userId foodId : Nat) (ty : String) :
    Option Notification :=
  ((db.notifications.filter (fun n =>
    n.user_id == userId && n.food_id == some foodId && n.type == ty)).reverse).head?

/-- `create`: inserts one row (the `status` column takes its `'unread'`
default; the caller builds the row). -/
def create (db : DB) (n : Notification) : DB :=
  { db with notifications := db.notifications ++ [n] }

/-- `deleteByFoodId`: `DELETE FROM notifications WHERE food_id = $1`. -/
def deleteByFoodId (db : DB) (foodId : Nat) : DB :=
  { db with notifications :=
      db.notifications.filter (fun n => !(n.food_id == some foodId)) }

end NotificationRepository

namespace FoodRepository

/-- `BaseRepository.findById` on the `foods` table. -/
def findById (db : DB) (id : Nat) : Option Food :=
  db.foods.find? (fun f => f.id == id)

/-- `updateStatus`: `UPDATE foods SET status = $2 WHERE id = $1 AND
user_id = $3 RETURNING *`; `none` when no row matched. -/
def updateStatus (db : DB) (id : Nat) (status : String) (userId : Nat) :
    Option Food × DB :=
  match db.foods.find? (fun f => f.id == id && f.user_id == userId) with
  | none => (none, db)
  | some f =>
      (some { f with status := status },
        { db with foods := db.foods.map (fun g =>
            if g.id == id && g.user_id == userId then { g with status := status }
            else g) })

/-- `markAsConsumed` delegates to `updateStatus` with `'consumed'`. -/
def markAsConsumed (db : DB) (id userId : Nat) : Option Food × DB :=
  updateStatus db id "consumed" userId

/-- `findExpiringFoods`: `WHERE user_id = $1 AND status = 'active' AND
is_food_expiring_soon(expiry_date, $2)`, where the SQL function is
`expiry_date <= CURRENT_DATE + threshold AND expiry_date >= CURRENT_DATE`
(`src/unnamed/part_000`).  The `ORDER BY expiry_date` clause only permutes
the selection and is not modelled. -/
def findExpiringFoods (db : DB) (today : Int) (userId : Nat)
    (daysThreshold : Int) : List Food :=
  db.foods.filter (fun f =>
    f.user_id == userId && f.status == "active" &&
    decide (f.expiry_date ≤ today + daysThreshold) &&
    decide (today ≤ f.expiry_date))

end FoodRepository

/-- `NotificationUtils.getNotificationPriority` (`src/unnamed/part_013`). -/
def NotificationUtils.getNotificationPriority (ty : String)
    (daysUntil : Option Int) : String :=
  if ty = "expiry_alert" then
    match daysUntil with
    | some d =>
        if d ≤ 0 then "high"
        else if d ≤ 1 then "high"
        else if d ≤ 3 then "medium"
        else "low"
    | none => "low"
  else "low"

/-- The `AppError`/`ValidationError` hierarchy of `@shared/types`
(`src/unnamed/part_013`): `ValidationError` carries field-keyed messages and
always passes status 400 to `super`. -/
inductive AppError where
  | validation (message : String) (errors : List (String × List String))
  | app (message : String) (statusCode : Nat)
  deriving Repr, DecidableEq

/-- `statusCode` of an error object (`ValidationError`'s constructor calls
`super(message, 400)`). -/
def AppError.statusCode : AppError → Nat
  | .validation _ _ => 400
  | .app _ code => code

/-! ## FoodService (`src/backend/src/services/food.service.ts`) -/

namespace FoodService

/-- The row `checkAndCreateExpiryNotification` builds in its
`if (!existingNotification)` branch: the title/message template selected by
day-offset and the priority escalation. -/
def expiryNotification (today : Int) (food : Food) : Notification :=
  let daysUntilExpiry := DateUtils.getDaysUntilExpiry food.expiry_date today
  if daysUntilExpiry < 0 then
    { user_id := food.user_id, food_id := some food.id,
      type := "expiry_alert", title := "期限切れの食品があります",
      message := food.name ++ "が期限切れです（" ++
        toString daysUntilExpiry.natAbs ++ "日経過）",
      priority := "high", status := "unread" }
  else if daysUntilExpiry = 0 then
    { user_id := food.user_id, food_id := some food.id,
      type := "expiry_alert", title := "本日期限切れの食品があります",
      message := food.name ++ "が本日期限切れです！早めにお使いください。",
      priority := "high", status := "unread" }
  else if daysUntilExpiry = 1 then
    { user_id := food.user_id, food_id := some food.id,
      type := "expiry_alert", title := "明日期限切れの食品があります",
      message := food.name ++ "が明日期限切れです。使い切りレシピをチェックしましょう！",
      priority := "high", status := "unread" }
  else
    { user_id := food.user_id, food_id := some food.id,
      type := "expiry_alert", title := "期限切れ間近の食品があります",
      message := food.name ++ "があと" ++ toString daysUntilExpiry ++
        "日で期限切れです。",
      priority := "medium", status := "unread" }

/-- `checkAndCreateExpiryNotification` with `today` made explicit (the TS
reads the clock inside `DateUtils.getDaysUntilExpiry`).  The audit-log side
effect (`logUserAction`) writes a table no claim mentions and is not
modelled. -/
def checkAndCreateExpiryNotification (today : Int) (food : Food) (db : DB) :
    DB :=
  if food.status ≠ "active" then db
  else
    let daysUntilExpiry := DateUtils.getDaysUntilExpiry food.expiry_date today
    if daysUntilExpiry ≤ 3 then
      match NotificationRepository.findByUserAndFood db food.user_id food.id
          "expiry_alert" with
      | some _ => db
      | none => NotificationRepository.create db (expiryNotification today food)
    else db

/-- `getFoodById`: 404 unless the food exists and belongs to the caller. -/
def getFoodById (db : DB) (userId foodId : Nat) : Except AppError Food :=
  match FoodRepository.findById db foodId with
  | none => .error (.app "Food not found" 404)
  | some food =>
      if food.user_id ≠ userId then .error (.app "Food not found" 404)
      else .ok food

/-- `markAsConsumed`: ownership check, status update, then deletion of the
food's notifications. -/
def markAsConsumed (db : DB) (userId foodId : Nat) :
    Except AppError (Food × DB) :=
  match getFoodById db userId foodId with
  | .error e => .error e
  | .ok _ =>
      match FoodRepository.markAsConsumed db foodId userId with
      | (none, _) => .error (.app "Failed to mark food as consumed" 500)
      | (some updatedFood, db1) =>
          .ok (updatedFood, NotificationRepository.deleteByFoodId db1 foodId)

/-- `checkExpiringFoodsForUser`: fetches the expiring foods once, then runs
the notification check for each in order. -/
def checkExpiringFoodsForUser (today : Int) (db : DB) (userId : Nat)
    (daysThreshold : Int) : DB :=
  (FoodRepository.findExpiringFoods db today userId daysThreshold).foldl
    (fun acc food => checkAndCreateExpiryNotification today food acc) db

end FoodService

/-! ## Lemmas about the notification generator -/

/-- `findByUserAndFood` returns `none` exactly when no row matches the
(user, food, type) triple. -/
theorem findByUserAndFood_eq_none_iff (db : DB) (u fid : Nat) (ty : String) :
    NotificationRepository.findByUserAndFood db u fid ty = none ↔
      ∀ n ∈ db.notifications,
        ¬(n.user_id = u ∧ n.food_id = some fid ∧ n.type = ty) := by
  unfold NotificationRepository.findByUserAndFood
  rw [List.head?_eq_none_iff, List.reverse_eq_nil_iff, List.filter_eq_nil_iff]
  constructor
  · intro h n hn hmatch
    exact h n hn (by simp [hmatch.1, hmatch.2.1, hmatch.2.2])
  · intro h n hn hb
    simp only [Bool.and_eq_true, beq_iff_eq] at hb
    exact h n hn ⟨hb.1.1, hb.1.2, hb.2⟩

/-- The fixed fields of the row the generator builds, and its priority as a
function of the day-offset. -/
theorem expiryNotification_fields (today : Int) (food : Food) :
    (FoodService.expiryNotification today food).user_id = food.user_id
    ∧ (FoodService.expiryNotification today food).food_id = some food.id
    ∧ (FoodService.expiryNotification today food).type = "expiry_alert"
    ∧ (FoodService.expiryNotification today food).status = "unread"
    ∧ ((FoodService.expiryNotification today food).priority =
        if food.expiry_date - today ≤ 1 then "high" else "medium") := by
  unfold FoodService.expiryNotification DateUtils.getDaysUntilExpiry
  dsimp only
  split_ifs <;> refine ⟨rfl, rfl, rfl, rfl, ?_⟩ <;>
    first
      | rfl
      | (exfalso; omega)

/-- `checkAndCreateExpiryNotification` either leaves the state unchanged or,
when the food is active, within the hard-coded 3-day window, and no
`expiry_alert` row exists for it, appends exactly the templated row. -/
theorem checkAndCreate_cases (today : Int) (food : Food) (db : DB) :
    FoodService.checkAndCreateExpiryNotification today food db = db
    ∨ (food.status = "active" ∧ food.expiry_date - today ≤ 3 ∧
        NotificationRepository.findByUserAndFood db food.user_id food.id
          "expiry_alert" = none ∧
        FoodService.checkAndCreateExpiryNotification today food db
          = { db with notifications := db.notifications ++
              [FoodService.expiryNotification today food] }) := by
  by_cases hs : food.status = "active"
  · by_cases hd : food.expiry_date - today ≤ 3
    · cases hfind : NotificationRepository.findByUserAndFood db food.user_id
          food.id "expiry_alert" with
      | none =>
          right
          refine ⟨hs, hd, rfl, ?_⟩
          unfold FoodService.checkAndCreateExpiryNotification
          rw [if_neg (by simp [hs])]
          simp only [DateUtils.getDaysUntilExpiry]
          rw [if_pos hd, hfind]
          rfl
      | some n0 =>
          left
          unfold FoodService.checkAndCreateExpiryNotification
          rw [if_neg (by simp [hs])]
          simp only [DateUtils.getDaysUntilExpiry]
          rw [if_pos hd, hfind]
    · left
      unfold FoodService.checkAndCreateExpiryNotification
      rw [if_neg (by simp [hs])]
      simp only [DateUtils.getDaysUntilExpiry]
      rw [if_neg hd]
  · left
    unfold FoodService.checkAndCreateExpiryNotification
    rw [if_pos hs]

/-- Any notification present after one generator step was already present,
or references the stepped food and its offset is within the hard cutoff. -/
theorem checkAndCreate_superset (today : Int) (food : Food) (db : DB) :
    ∀ n ∈ (FoodService.checkAndCreateExpiryNotification today food db).notifications,
      n ∈ db.notifications ∨
        (food.status = "active" ∧ n.food_id = some food.id ∧
          food.expiry_date - today ≤ 3) := by
  intro n hn
  rcases checkAndCreate_cases today food db with heq | ⟨hs, hd, _, heq⟩
  · rw [heq] at hn
    exact Or.inl hn
  · rw [heq] at hn
    rcases List.mem_append.mp hn with h | h
    · exact Or.inl h
    · right
      have hfid := (expiryNotification_fields today food).2.1
      have hn' : n = FoodService.expiryNotification today food := by
        simpa using h
      exact ⟨hs, by rw [hn']; exact hfid, hd⟩

/-- Folding the generator over a food list only ever adds rows for foods of
the list whose offset is within the hard cutoff. -/
theorem foldl_check_superset (today : Int) (l : List Food) :
    ∀ (db0 : DB) (n : Notification),
      n ∈ (l.foldl (fun acc food =>
        FoodService.checkAndCreateExpiryNotification today food acc)
          db0).notifications →
      n ∈ db0.notifications ∨
        ∃ f ∈ l, f.status = "active" ∧ n.food_id = some f.id ∧
          f.expiry_date - today ≤ 3 := by
  induction l with
  | nil =>
      intro db0 n hn
      exact Or.inl hn
  | cons x xs ih =>
      intro db0 n hn
      rw [List.foldl_cons] at hn
      rcases ih _ n hn with h | ⟨f, hf, hprops⟩
      · rcases checkAndCreate_superset today x db0 n h with h' | ⟨ha, hfid, hd⟩
        · exact Or.inl h'
        · exact Or.inr ⟨x, by simp, ha, hfid, hd⟩
      · exact Or.inr ⟨f, List.mem_cons_of_mem x hf, hprops⟩

/-- Number of notification rows matching a (user, food, type) triple. -/
def countTriple (db : DB) (u : Nat) (fid : Option Nat) (ty : String) : Nat :=
  (db.notifications.filter (fun n =>
    n.user_id == u && n.food_id == fid && n.type == ty)).length

/-- C4: the generator inserts a row only after the existence check found no
`expiry_alert` row for the (user, food) pair — in particular no unread one —
so a state holding at most one `expiry_alert` row per (user, food, type)
still does after the generator runs. -/
theorem checkAndCreate_c4 (today : Int) (food : Food) (db : DB) :
    (FoodService.checkAndCreateExpiryNotification today food db ≠ db →
      ∀ n ∈ db.notifications,
        ¬(n.user_id = food.user_id ∧ n.food_id = some food.id ∧
          n.type = "expiry_alert" ∧ n.status = "unread"))
    ∧ (∀ u fid ty, countTriple db u fid ty ≤ 1 →
        countTriple
          (FoodService.checkAndCreateExpiryNotification today food db)
          u fid ty ≤ 1) := by
  rcases checkAndCreate_cases today food db with heq | ⟨_, _, hfind, heq⟩
  · rw [heq]
    exact ⟨fun h => absurd rfl h, fun u fid ty h => h⟩
  · have hnone := (findByUserAndFood_eq_none_iff db food.user_id food.id
      "expiry_alert").mp hfind
    constructor
    · intro _ n hn hmatch
      exact hnone n hn ⟨hmatch.1, hmatch.2.1, hmatch.2.2.1⟩
    · intro u fid ty hle
      rw [heq]
      unfold countTriple at hle ⊢
      simp only [List.filter_append, List.length_append]
      by_cases hm : ((FoodService.expiryNotification today food).user_id == u
          && (FoodService.expiryNotification today food).food_id == fid
          && (FoodService.expiryNotification today food).type == ty) = true
      · obtain ⟨hu, hf, htt, -, -⟩ := expiryNotification_fields today food
        simp only [Bool.and_eq_true, beq_iff_eq] at hm
        have hempty : (db.notifications.filter (fun n =>
            n.user_id == u && n.food_id == fid && n.type == ty)) = [] := by
          rw [List.filter_eq_nil_iff]
          intro n hn hb
          simp only [Bool.and_eq_true, beq_iff_eq] at hb
          exact hnone n hn
            ⟨by rw [hb.1.1, ← hm.1.1, hu], by rw [hb.1.2, ← hm.1.2, hf],
              by rw [hb.2, ← hm.2, htt]⟩
        rw [hempty, List.filter_singleton]
        cases hcond : ((FoodService.expiryNotification today food).user_id == u
            && (FoodService.expiryNotification today food).food_id == fid
            && (FoodService.expiryNotification today food).type == ty) <;>
          simp [hcond]
      · have hempty : ([FoodService.expiryNotification today food].filter
            (fun n => n.user_id == u && n.food_id == fid && n.type == ty))
            = [] := by
          rw [List.filter_eq_nil_iff]
          intro n hn hb
          have hn' : n = FoodService.expiryNotification today food := by
            simpa using hn
          rw [hn'] at hb
          exact hm hb
        rw [hempty]
        simpa using hle

/-- Witness for C4 on a concrete state: one unrelated notification, a food
expiring tomorrow; the invariant is preserved. -/
theorem checkAndCreate_c4_witness :
    let f : Food := ⟨7, 2, 1, "牛乳", "refrigerator", 0, 1, 1, "本", "active"⟩
    let db : DB := ⟨[f], [⟨2, none, "system", "t", "m", "low", "unread"⟩]⟩
    countTriple (FoodService.checkAndCreateExpiryNotification 0 f db)
      2 (some 7) "expiry_alert" ≤ 1 := by
  exact (checkAndCreate_c4 0 _ _).2 2 (some 7) "expiry_alert" (by decide)

/-- C7: marking one of the caller's foods consumed succeeds and leaves no
notification row referencing that food. -/
theorem markAsConsumed_c7 (db : DB) (userId foodId : Nat) (food : Food)
    (hfind : FoodRepository.findById db foodId = some food)
    (howner : food.user_id = userId) :
    ∃ f' db', FoodService.markAsConsumed db userId foodId = .ok (f', db')
      ∧ ∀ n ∈ db'.notifications, n.food_id ≠ some foodId := by
  have hmem : food ∈ db.foods := List.mem_of_find?_eq_some hfind
  have hid : food.id = foodId := by
    have := List.find?_some hfind
    simpa using this
  unfold FoodService.markAsConsumed FoodService.getFoodById
  rw [hfind]
  dsimp only
  rw [if_neg (by simp [howner])]
  unfold FoodRepository.markAsConsumed FoodRepository.updateStatus
  cases hupd : db.foods.find? (fun f => f.id == foodId && f.user_id == userId)
      with
  | none =>
      rw [List.find?_eq_none] at hupd
      exact absurd (by simp [hid, howner]) (hupd food hmem)
  | some f0 =>
      dsimp only
      refine ⟨_, _, rfl, ?_⟩
      intro n hn
      unfold NotificationRepository.deleteByFoodId at hn
      simp only at hn
      have := (List.mem_filter.mp hn).2
      simpa using this

/-- Witness for C7 on a concrete state with two notifications for the
food. -/
theorem markAsConsumed_c7_witness :
    let f : Food := ⟨3, 5, 1, "なす", "pantry", 0, 2, 2, "個", "active"⟩
    let db : DB := ⟨[f],
      [⟨5, some 3, "expiry_alert", "t", "m", "high", "unread"⟩,
       ⟨5, some 3, "expiry_alert", "t2", "m2", "high", "read"⟩]⟩
    ∃ f' db', FoodService.markAsConsumed db 5 3 = .ok (f', db')
      ∧ ∀ n ∈ db'.notifications, n.food_id ≠ some 3 := by
  exact markAsConsumed_c7
    ⟨[⟨3, 5, 1, "なす", "pantry", 0, 2, 2, "個", "active"⟩],
      [⟨5, some 3, "expiry_alert", "t", "m", "high", "unread"⟩,
       ⟨5, some 3, "expiry_alert", "t2", "m2", "high", "read"⟩]⟩
    5 3 ⟨3, 5, 1, "なす", "pantry", 0, 2, 2, "個", "active"⟩ (by decide) rfl

/-- C8: the created notification's priority is "high" exactly when the
day-offset is at most 1 (including 0 and all negative offsets) and "medium"
otherwise; it agrees with `NotificationUtils.getNotificationPriority`; a
food expiring today is classified "expiring soon" with priority "high". -/
theorem checkAndCreate_c8 (today : Int) (food : Food) (db : DB)
    (hactive : food.status = "active")
    (hd : food.expiry_date - today ≤ 3)
    (hnone : NotificationRepository.findByUserAndFood db food.user_id food.id
      "expiry_alert" = none) :
    (FoodService.checkAndCreateExpiryNotification today food db).notifications
        = db.notifications ++ [FoodService.expiryNotification today food]
    ∧ ((FoodService.expiryNotification today food).priority = "high" ↔
        food.expiry_date - today ≤ 1)
    ∧ (1 < food.expiry_date - today →
        (FoodService.expiryNotification today food).priority = "medium")
    ∧ (FoodService.expiryNotification today food).priority =
        NotificationUtils.getNotificationPriority "expiry_alert"
          (some (food.expiry_date - today))
    ∧ (food.expiry_date - today = 0 →
        classify food.expiry_date today 3 = "expiring soon"
        ∧ (FoodService.expiryNotification today food).priority = "high") := by
  have hprio := (expiryNotification_fields today food).2.2.2.2
  refine ⟨?_, ?_, ?_, ?_, ?_⟩
  · have hstep : FoodService.checkAndCreateExpiryNotification today food db
        = { db with notifications := db.notifications ++
            [FoodService.expiryNotification today food] } := by
      unfold FoodService.checkAndCreateExpiryNotification
      rw [if_neg (by simp [hactive])]
      simp only [DateUtils.getDaysUntilExpiry]
      rw [if_pos hd, hnone]
      rfl
    rw [hstep]
  · rw [hprio]
    by_cases h1 : food.expiry_date - today ≤ 1
    · simp [h1]
    · simp [h1]
  · intro h1
    rw [hprio, if_neg (by omega)]
  · rw [hprio]
    unfold NotificationUtils.getNotificationPriority
    rw [if_pos rfl]
    dsimp only
    by_cases h0 : food.expiry_date - today ≤ 0
    · rw [if_pos h0, if_pos (by omega)]
    · by_cases h1 : food.expiry_date - today ≤ 1
      · rw [if_neg h0, if_pos h1, if_pos h1]
      · rw [if_neg h0, if_neg h1, if_neg h1, if_pos hd]
  · intro h0
    constructor
    · simp [classify, DateUtils.isExpired, DateUtils.isExpiringSoon,
        DateUtils.getDaysUntilExpiry, h0]
    · rw [hprio, if_pos (by omega)]

/-- Witness for C8: a food expiring today gets a "high"-priority alert. -/
theorem checkAndCreate_c8_witness :
    let f : Food := ⟨9, 4, 1, "りんご", "refrigerator", 0, 0, 3, "個", "active"⟩
    (FoodService.checkAndCreateExpiryNotification 0 f ⟨[f], []⟩).notifications
        = [FoodService.expiryNotification 0 f]
    ∧ classify f.expiry_date 0 3 = "expiring soon"
    ∧ (FoodService.expiryNotification 0 f).priority = "high" := by
  have h := checkAndCreate_c8 0
    ⟨9, 4, 1, "りんご", "refrigerator", 0, 0, 3, "個", "active"⟩
    ⟨[⟨9, 4, 1, "りんご", "refrigerator", 0, 0, 3, "個", "active"⟩], []⟩
    rfl (by decide) (by decide)
  exact ⟨h.1, (h.2.2.2.2 (by decide)).1, (h.2.2.2.2 (by decide)).2⟩

/-- C10: the notification cutoff is hard-coded at 3 days: a food with offset
above 3 never produces a row, while a sweep threshold `T` selects every
active food with offset in `[0, T]`; any row added by the sweep references a
food with offset at most 3. -/
theorem sweep_c10 (today : Int) (db : DB) (userId : Nat) (T : Int) :
    (∀ (food : Food) (db₀ : DB), 3 < food.expiry_date - today →
        FoodService.checkAndCreateExpiryNotification today food db₀ = db₀)
    ∧ (∀ food ∈ db.foods, food.user_id = userId → food.status = "active" →
        today ≤ food.expiry_date → food.expiry_date ≤ today + T →
        food ∈ FoodRepository.findExpiringFoods db today userId T)
    ∧ (∀ n ∈ (FoodService.checkExpiringFoodsForUser today db userId
          T).notifications,
        n ∈ db.notifications ∨
          ∃ f ∈ db.foods, f.status = "active" ∧ n.food_id = some f.id ∧
            f.expiry_date - today ≤ 3) := by
  refine ⟨?_, ?_, ?_⟩
  · intro food db₀ hgt
    unfold FoodService.checkAndCreateExpiryNotification
    by_cases hs : food.status = "active"
    · simp [hs, DateUtils.getDaysUntilExpiry]
      omega
    · simp [hs]
  · intro food hmem hu hs hlo hhi
    unfold FoodRepository.findExpiringFoods
    exact List.mem_filter.mpr ⟨hmem, by simp [hu, hs, hlo, hhi]⟩
  · intro n hn
    unfold FoodService.checkExpiringFoodsForUser at hn
    rcases foldl_check_superset today
        (FoodRepository.findExpiringFoods db today userId T) db n hn with
      h | ⟨f, hf, hprops⟩
    · exact Or.inl h
    · refine Or.inr ⟨f, ?_, hprops⟩
      unfold FoodRepository.findExpiringFoods at hf
      exact (List.mem_filter.mp hf).1

/-! ## Food creation and validation (C6) -/

/-- `FoodCreateData` with each date string replaced by its parse result
(`none` = the string fails `ValidationUtils.isValidDate`). -/
structure FoodCreateData where
  name : String
  category_id : Nat
  purchase_date : Option Int
  expiry_date : Option Int
  quantity : Int
  unit : String
  storage_location : String
  deriving Repr, DecidableEq

namespace FoodService

/-- `validateFoodData`: the accumulated `errors` object as an association
list in JS insertion order.  The cross-field date check fires only when
both dates parse, so it never collides with the per-field date errors. -/
def validateFoodData (d : FoodCreateData) : List (String × List String) :=
  (if d.name.trim = "" then [("name", ["Food name is required"])]
   else if 100 < d.name.length then
     [("name", ["Food name must not exceed 100 characters"])]
   else [])
  ++ (if d.purchase_date.isNone then
      [("purchase_date", ["Invalid purchase date"])] else [])
  ++ (if d.expiry_date.isNone then
      [("expiry_date", ["Invalid expiry date"])] else [])
  ++ (match d.purchase_date, d.expiry_date with
      | some p, some e =>
          if e < p then
            [("expiry_date", ["Expiry date cannot be before purchase date"])]
          else []
      | _, _ => [])
  ++ (if d.quantity ≤ 0 then
      [("quantity", ["Quantity must be a positive number"])] else [])
  ++ (if d.unit.trim = "" then [("unit", ["Unit is required"])] else [])

/-- Environment for `createFood`: the category table (ids) and the
storage-tip lookup. -/
structure Env where
  categories : List Nat
  storageTips : String → Option StorageTip

/-- `createFood`: validation, category existence, storage adjustment,
insertion, then the expiry-notification check.  The final pattern arm is
unreachable because validation already rejected unparsable dates. -/
def createFood (env : Env) (today : Int) (db : DB) (userId : Nat)
    (d : FoodCreateData) (newId : Nat) : Except AppError (Food × DB) :=
  let errors := validateFoodData d
  if errors ≠ [] then .error (.validation "Validation failed" errors)
  else if ¬ env.categories.contains d.category_id then
    .error (.app "Category not found" 404)
  else
    match d.purchase_date, d.expiry_date with
    | some p, some e =>
        let adjusted := adjustExpiryDateBasedOnStorage env.storageTips
          { name := d.name, storage_location := d.storage_location,
            purchase_date := p, expiry_date := e }
        let food : Food :=
          { id := newId, user_id := userId,
            category_id := d.category_id, name := d.name,
            storage_location := d.storage_location,
            purchase_date := adjusted.purchase_date,
            expiry_date := adjusted.expiry_date,
            quantity := d.quantity, unit := d.unit, status := "active" }
        let db1 : DB := { db with foods := db.foods ++ [food] }
        .ok (food, checkAndCreateExpiryNotification today food db1)
    | _, _ => .error (.app "Invalid dates" 400)

end FoodService

/-- The slice of `ErrorMiddleware.handle`'s response the claims mention:
HTTP status and attached field errors.  A `ValidationError` is answered
with its own `statusCode` (400) and its `errors`; a plain `AppError` with
its `statusCode` and no field errors. -/
structure ErrorResponse where
  status : Nat
  error : String
  errors : Option (List (String × List String))
  deriving Repr, DecidableEq

def ErrorMiddleware.handle : AppError → ErrorResponse
  | .validation msg errs =>
      { status := AppError.statusCode (.validation msg errs), error := msg,
        errors := some errs }
  | .app msg code => { status := code, error := msg, errors := none }

/-- C6: a creation payload whose expiry date parses strictly before its
purchase date is rejected with a `ValidationError` (answered as HTTP 400)
carrying the `expiry_date`-keyed message, and no food is created. -/
theorem createFood_c6 (env : FoodService.Env) (today : Int) (db : DB)
    (userId : Nat) (d : FoodCreateData) (newId : Nat) (p e : Int)
    (hp : d.purchase_date = some p) (he : d.expiry_date = some e)
    (hlt : e < p) :
    FoodService.createFood env today db userId d newId
        = .error (.validation "Validation failed"
            (FoodService.validateFoodData d))
    ∧ ("expiry_date", ["Expiry date cannot be before purchase date"])
        ∈ FoodService.validateFoodData d
    ∧ (ErrorMiddleware.handle (.validation "Validation failed"
        (FoodService.validateFoodData d))).status = 400
    ∧ ∀ f db', FoodService.createFood env today db userId d newId
        ≠ .ok (f, db') := by
  have hmem : ("expiry_date", ["Expiry date cannot be before purchase date"])
      ∈ FoodService.validateFoodData d := by
    unfold FoodService.validateFoodData
    rw [hp, he]
    simp [hlt]
  have hne : FoodService.validateFoodData d ≠ [] := List.ne_nil_of_mem hmem
  have herr : FoodService.createFood env today db userId d newId
      = .error (.validation "Validation failed"
          (FoodService.validateFoodData d)) := by
    unfold FoodService.createFood
    rw [if_pos hne]
  refine ⟨herr, hmem, rfl, ?_⟩
  intro f db' hok
  rw [herr] at hok
  exact Except.noConfusion hok

/-- Witness for C6: purchase day 10, expiry day 5. -/
theorem createFood_c6_witness :
    FoodService.createFood ⟨[1], fun _ => none⟩ 0 ⟨[], []⟩ 1
        ⟨"りんご", 1, some 10, some 5, 2, "個", "refrigerator"⟩ 1
        = .error (.validation "Validation failed"
            (FoodService.validateFoodData
              ⟨"りんご", 1, some 10, some 5, 2, "個", "refrigerator"⟩))
    ∧ (ErrorMiddleware.handle (.validation "Validation failed"
        (FoodService.validateFoodData
          ⟨"りんご", 1, some 10, some 5, 2, "個", "refrigerator"⟩))).status
        = 400 := by
  have h := createFood_c6 ⟨[1], fun _ => none⟩ 0 ⟨[], []⟩ 1
    ⟨"りんご", 1, some 10, some 5, 2, "個", "refrigerator"⟩ 1 10 5 rfl rfl
    (by decide)
  exact ⟨h.1, h.2.2.1⟩

/-! ## Rate limiter (`RateLimitMiddleware`, `src/unnamed/part_004`) -/

structure RateLimitResult where
  allowed : Bool
  remaining : Int
  resetTime : Int
  deriving Repr, DecidableEq

/-- `checkRateLimit`.  The two Redis calls are oracles: `getResult` is
`redisClient.get` (`none` = key absent, so `parseInt` is skipped and the
count is 0), `incrResult` is `incrementWithExpire`; `.error` models the
call throwing, which lands in the `catch` block that fails open. -/
def checkRateLimit (windowMs maxRequests now : Int)
    (getResult : Except Unit (Option Int)) (incrResult : Except Unit Int) :
    RateLimitResult :=
  let windowStart := (Int.fdiv now windowMs) * windowMs
  match getResult with
  | .error _ =>
      { allowed := true, remaining := maxRequests - 1,
        resetTime := windowStart + windowMs }
  | .ok currentCount =>
      let requestCount := currentCount.getD 0
      if maxRequests ≤ requestCount then
        { allowed := false, remaining := 0,
          resetTime := windowStart + windowMs }
      else
        match incrResult with
        | .error _ =>
            { allowed := true, remaining := maxRequests - 1,
              resetTime := windowStart + windowMs }
        | .ok newCount =>
            { allowed := true, remaining := max 0 (maxRequests - newCount),
              resetTime := windowStart + windowMs }

/-- What the `createRateLimiter` middleware does with the check result:
either an early 429 response or `next()` (pass the request through). -/
inductive LimiterOutcome where
  | next
  | tooMany (status : Nat) (retryAfter : Int)
  deriving Repr, DecidableEq

def createRateLimiterStep (windowMs maxRequests now : Int)
    (getResult : Except Unit (Option Int)) (incrResult : Except Unit Int)
    (now2 : Int) : LimiterOutcome :=
  let result := checkRateLimit windowMs maxRequests now getResult incrResult
  if result.allowed = false then
    .tooMany 429 (Int.fdiv (result.resetTime - now2 + 999) 1000)
  else .next

/-- C9: the limiter fails open — a store error during the read or the
increment yields `allowed = true` and the request is passed to the handler;
a 429 can only arise from a successful read reporting a count at or above
the maximum. -/
theorem rateLimiter_c9 (w m now now2 : Int)
    (gr : Except Unit (Option Int)) (ir : Except Unit Int) :
    (gr = .error () →
      (checkRateLimit w m now gr ir).allowed = true
      ∧ createRateLimiterStep w m now gr ir now2 = .next)
    ∧ (ir = .error () →
      (checkRateLimit w m now gr ir).allowed = true
      ∨ ∃ c, gr = .ok c ∧ m ≤ c.getD 0)
    ∧ ((checkRateLimit w m now gr ir).allowed = false →
      ∃ c, gr = .ok c ∧ m ≤ c.getD 0)
    ∧ ((checkRateLimit w m now gr ir).allowed = true →
      createRateLimiterStep w m now gr ir now2 = .next)
    ∧ (∀ s ra, createRateLimiterStep w m now gr ir now2 = .tooMany s ra →
      (checkRateLimit w m now gr ir).allowed = false ∧ s = 429) := by
  cases gr with
  | error u =>
      cases u
      refine ⟨fun _ => ⟨rfl, rfl⟩, fun _ => Or.inl rfl, ?_, fun _ => rfl, ?_⟩
      · intro hfalse
        exact absurd hfalse (by simp [checkRateLimit])
      · intro s ra hstep
        exact absurd hstep (by simp [createRateLimiterStep, checkRateLimit])
  | ok c =>
      by_cases hc : m ≤ c.getD 0
      · have hall : (checkRateLimit w m now (.ok c) ir).allowed = false := by
          simp [checkRateLimit, hc]
        refine ⟨?_, fun _ => Or.inr ⟨c, rfl, hc⟩, fun _ => ⟨c, rfl, hc⟩,
          ?_, ?_⟩
        · intro h
          exact Except.noConfusion h
        · intro htrue
          rw [hall] at htrue
          exact absurd htrue (by simp)
        · intro s ra hstep
          unfold createRateLimiterStep at hstep
          dsimp only at hstep
          rw [hall, if_pos rfl] at hstep
          injection hstep with h1 h2
          exact ⟨hall, h1.symm⟩
      · cases ir with
        | error u =>
            cases u
            have hall : (checkRateLimit w m now (.ok c) (.error ())).allowed
                = true := by
              simp [checkRateLimit, hc]
            refine ⟨fun h => Except.noConfusion h, fun _ => Or.inl hall, ?_,
              fun _ => ?_, ?_⟩
            · intro hfalse
              rw [hall] at hfalse
              exact absurd hfalse (by simp)
            · unfold createRateLimiterStep
              rw [if_neg (by rw [hall]; simp)]
            · intro s ra hstep
              unfold createRateLimiterStep at hstep
              rw [if_neg (by rw [hall]; simp)] at hstep
              exact LimiterOutcome.noConfusion hstep
        | ok k =>
            have hall : (checkRateLimit w m now (.ok c) (.ok k)).allowed
                = true := by
              simp [checkRateLimit, hc]
            refine ⟨fun h => Except.noConfusion h,
              fun h => Except.noConfusion h, ?_, fun _ => ?_, ?_⟩
            · intro hfalse
              rw [hall] at hfalse
              exact absurd hfalse (by simp)
            · unfold createRateLimiterStep
              rw [if_neg (by rw [hall]; simp)]
            · intro s ra hstep
              unfold createRateLimiterStep at hstep
              rw [if_neg (by rw [hall]; simp)] at hstep
              exact LimiterOutcome.noConfusion hstep

/-- Witness for C9: a throwing read with limit 5 still passes the request
through. -/
theorem rateLimiter_c9_witness :
    (checkRateLimit 1000 5 0 (.error ()) (.ok 1)).allowed = true
    ∧ createRateLimiterStep 1000 5 0 (.error ()) (.ok 1) 0 = .next :=
  (rateLimiter_c9 1000 5 0 0 (.error ()) (.ok 1)).1 rfl

/-- Witness for C10: a food 5 days out is selected by a 10-day sweep yet the
sweep adds no notification. -/
theorem sweep_c10_witness :
    let f : Food := ⟨1, 1, 1, "豆腐", "refrigerator", 0, 5, 1, "個", "active"⟩
    let db : DB := ⟨[f], []⟩
    f ∈ FoodRepository.findExpiringFoods db 0 1 10
    ∧ FoodService.checkAndCreateExpiryNotification 0 f db = db
    ∧ (FoodService.checkExpiringFoodsForUser 0 db 1 10).notifications = [] := by
  have h := sweep_c10 0
    ⟨[⟨1, 1, 1, "豆腐", "refrigerator", 0, 5, 1, "個", "active"⟩], []⟩ 1 10
  refine ⟨h.2.1 _ (by simp) rfl rfl (by decide) (by decide),
    h.1 _ _ (by decide), ?_⟩
  rw [List.eq_nil_iff_forall_not_mem]
  intro n hn
  rcases h.2.2 n hn with h' | ⟨f', hf', -, -, hoff⟩
  · exact absurd h' (List.not_mem_nil n)
  · have : f' = ⟨1, 1, 1, "豆腐", "refrigerator", 0, 5, 1, "個", "active"⟩ := by
      simpa using hf'
    rw [this] at hoff
    exact absurd hoff (by decide)

end FoodKeeper
